import Mathlib

/-!
Shallow embedding of the compression engine in `api/compress.js` of the
`compressfiles` repository, together with theorems settling the frozen
claims about it.  Effects are made explicit: the network is a function
from attempt number to a response, the filesystem is an association list
from path to contents, and the MuPDF / Ghostscript libraries are
parameters supplying the operations the code calls.
-/

namespace CompressFiles

/-! ### String utilities (JS `String.prototype.includes`) -/

/-- Boolean test that the character list `sub` is a prefix of `s`. -/
def charsStartWith : List Char → List Char → Bool
  | _, [] => true
  | [], _ :: _ => false
  | c :: cs, d :: ds => (c == d) && charsStartWith cs ds

/-- Boolean test that the character list `sub` occurs contiguously in `s`. -/
def charsContain : List Char → List Char → Bool
  | [], sub => sub.isEmpty
  | c :: cs, sub => charsStartWith (c :: cs) sub || charsContain cs sub

/-- JS `s.includes(sub)`: substring containment on strings. -/
def strIncludes (s sub : String) : Bool :=
  charsContain s.toList sub.toList

/-- An HTTP response as seen by `https.get`'s callback. -/
structure HttpResponse where
  statusCode : Nat
  statusMessage : String
  body : List Nat
  deriving DecidableEq

/-- One fetch attempt (`fetchBlobAsBufferOnce`): a transport failure is
rejected as-is; a response with status other than 200 is rejected with
`HTTP <status> <statusMessage>`; a 200 response resolves to its body. -/
def fetchBlobAsBufferOnce (r : Except String HttpResponse) :
    Except String (List Nat) :=
  match r with
  | .error e => .error e
  | .ok res =>
    if res.statusCode != 200 then
      .error ("HTTP " ++ toString res.statusCode ++ " " ++ res.statusMessage)
    else
      .ok res.body

/-- Constant `maxAttempts` of `fetchBlobAsBuffer`. -/
def maxAttempts : Nat := 4

/-- Constant `delayMs` of `fetchBlobAsBuffer`: the inter-attempt delay. -/
def delayMs : Nat := 1500

/-- The retry loop of `fetchBlobAsBuffer`, with the remaining fuel
(`maxAttempts - attempt + 1`) made explicit.  Alongside the result it
returns a trace of the attempts made, each paired with the delay slept
before it (the source sleeps `delayMs` before every attempt but the
first).  `lastErr` is the message of the most recent failed attempt. -/
def fetchGo (net : Nat → Except String HttpResponse) :
    Nat → Nat → String → List (Nat × Nat) →
    List (Nat × Nat) × Except String (List Nat)
  | 0, _, lastErr, log =>
    (log, .error ("Failed to fetch blob after " ++ toString maxAttempts ++
                  " attempts: " ++ lastErr))
  | fuel + 1, attempt, _, log =>
    let log' := log ++ [(attempt, if 1 < attempt then delayMs else 0)]
    match fetchBlobAsBufferOnce (net attempt) with
    | .ok buf => (log', .ok buf)
    | .error e => fetchGo net fuel (attempt + 1) e log'

/-- Function `fetchBlobAsBuffer`: up to `maxAttempts` attempts starting at attempt 1;
returns the attempt trace and the final outcome. -/
def fetchBlobAsBuffer (net : Nat → Except String HttpResponse) :
    List (Nat × Nat) × Except String (List Nat) :=
  fetchGo net maxAttempts 1 "" []

/-- One row of `LEVEL_CONFIG`: JPEG quality, render scale (the source's
floating literals `1.5`, `1.2`, `1.0` are represented as rationals), and
the Ghostscript `-dPDFSETTINGS` directive. -/
structure LevelCfg where
  quality : Nat
  scale : ℚ
  gsSetting : String
  deriving DecidableEq

/-- The `LEVEL_CONFIG` table, keyed by the level string; `none` for a key
the object does not have. -/
def LEVEL_CONFIG : String → Option LevelCfg
  | "low" => some { quality := 85, scale := 3 / 2, gsSetting := "/printer" }
  | "medium" => some { quality := 60, scale := 6 / 5, gsSetting := "/ebook" }
  | "high" => some { quality := 35, scale := 1, gsSetting := "/screen" }
  | _ => none

/-- Result of `Object.keys(LEVEL_CONFIG)` (insertion order). -/
def levelKeys : List String := ["low", "medium", "high"]

/-- The handler's level validation: an absent (`none`) or unrecognized
level is replaced by `"medium"`. -/
def validateLevel : Option String → String
  | some l => if levelKeys.contains l then l else "medium"
  | none => "medium"

/-- The catch block's message selection: `is413` models
`err.code === 'LIMIT_FILE_SIZE' || err.statusCode === 413 || err.status === 413`,
and `msg` is `err.message`.  The pattern checks are applied in source
order. -/
def classifyError (is413 : Bool) (msg : String) : String :=
  if is413 then
    "File too large. Maximum upload size is 50 MB."
  else if strIncludes msg "encrypted" || strIncludes msg "password" then
    "Encrypted PDFs are not supported. Please remove the password first."
  else if strIncludes msg "timeout" then
    "Compression timed out. Please try the High compression level for large files."
  else if strIncludes msg "Failed to fetch blob" then
    "Could not retrieve uploaded file: " ++ msg
  else if strIncludes msg "corrupt" || strIncludes msg "repair" then
    "The PDF appears to be corrupted or uses an unsupported format."
  else
    "Compression failed: " ++ msg

/-- Filesystem: association list from path to byte contents. -/
abbrev Fs := List (String × List Nat)

/-- Write a file (`writeFileSync`). -/
def writeFileSync (fs : Fs) (p : String) (data : List Nat) : Fs :=
  (p, data) :: fs

/-- Read a file (`readFileSync`); `none` when the path is absent. -/
def readFileSync (fs : Fs) (p : String) : Option (List Nat) :=
  (fs.find? (fun e => e.1 == p)).map (fun e => e.2)

/-- Remove a file if present (`try { unlinkSync(p) } catch {}`). -/
def unlinkSync (fs : Fs) (p : String) : Fs :=
  fs.filter (fun e => !(e.1 == p))

/-- Whether a path exists in the filesystem. -/
def hasFile (fs : Fs) (p : String) : Bool :=
  fs.any (fun e => e.1 == p)

/-- Constant `tmpdir()` of the `os` module. -/
def tmpdir : String := "/tmp"

/-- Function `join` of the `path` module, for the two-segment uses here. -/
def joinPath (a b : String) : String := a ++ "/" ++ b

/-- Path of the temporary input file `pdfcomp-in-<id>.pdf`. -/
def gsInPath (id : String) : String :=
  joinPath tmpdir ("pdfcomp-in-" ++ id ++ ".pdf")

/-- Path of the temporary output file `pdfcomp-out-<id>.pdf`. -/
def gsOutPath (id : String) : String :=
  joinPath tmpdir ("pdfcomp-out-" ++ id ++ ".pdf")

/-- Argument vector passed to the `gs` binary; `none` when the level is
not a key of `LEVEL_CONFIG` (reading `.gsSetting` of `undefined` would
throw in the source). -/
def gsArgs (level outPath inPath : String) : Option (List String) :=
  (LEVEL_CONFIG level).map (fun cfg =>
    ["-sDEVICE=pdfwrite", "-dNOPAUSE", "-dBATCH", "-dQUIET",
     "-dPDFSETTINGS=" ++ cfg.gsSetting,
     "-dCompatibilityLevel=1.5",
     "-sOutputFile=" ++ outPath,
     inPath])

/-- Outcome of one `execFileAsync` invocation of the `gs` binary:
either exit code 0 or a raised failure (non-zero exit, spawn error or
the enforced 55 s timeout, whose message then contains `timeout`).
Either way the binary may or may not have produced the output file. -/
inductive GsExec where
  | exit0 (outFile : Option (List Nat))
  | fail (msg : String) (outFile : Option (List Nat))

/-- Body of the `try` block of `compressWithGhostscript`: write the
input file, run the binary, read the output file.  Returns the
filesystem as left by the block together with its result (`Except.error`
models a thrown exception). -/
def gsTryBlock (exec : List String → GsExec) (inPath outPath : String)
    (inputBuffer : List Nat) (level : String) (fs0 : Fs) :
    Fs × Except String (List Nat) :=
  let fs1 := writeFileSync fs0 inPath inputBuffer
  match gsArgs level outPath inPath with
  | none => (fs1, .error "TypeError: Cannot read properties of undefined")
  | some args =>
    match exec args with
    | .exit0 outFile =>
      let fs2 := match outFile with
        | some b => writeFileSync fs1 outPath b
        | none => fs1
      match readFileSync fs2 outPath with
      | some b => (fs2, .ok b)
      | none =>
        (fs2, .error ("ENOENT: no such file or directory, open " ++ outPath))
    | .fail msg outFile =>
      let fs2 := match outFile with
        | some b => writeFileSync fs1 outPath b
        | none => fs1
      (fs2, .error msg)

/-- Function `compressWithGhostscript`: the `try` block followed by the
`finally` clause, which unlinks both temporary files on every exit path
before the result (or error) leaves the function. -/
def compressWithGhostscript (exec : List String → GsExec) (id : String)
    (inputBuffer : List Nat) (level : String) (fs0 : Fs) :
    Fs × Except String (List Nat) :=
  let inPath := gsInPath id
  let outPath := gsOutPath id
  let r := gsTryBlock exec inPath outPath inputBuffer level fs0
  (unlinkSync (unlinkSync r.1 inPath) outPath, r.2)

/-- A page of the source document as MuPDF exposes it: its bounds
`[x0, y0, x1, y1]` (document units; the source's floats are represented
as integers, which the claims' properties do not depend on). -/
structure SrcPage where
  x0 : Int
  y0 : Int
  x1 : Int
  y1 : Int
  deriving DecidableEq, Inhabited

/-- An RGB pixel buffer produced by `page.toPixmap`. -/
structure Pixmap where
  width : Nat
  height : Nat
  samples : List Nat
  deriving DecidableEq

/-- The image XObject dictionary built for one page, together with the
raw JPEG stream registered by `addRawStream`. -/
structure ImageXObject where
  typeName : String
  subtype : String
  width : Nat
  height : Nat
  colorSpace : String
  bitsPerComponent : Nat
  filter : String
  stream : List Nat
  deriving DecidableEq

/-- A page object of the output document, as built by `addPage`:
mediabox, rotation, the resource dictionary's XObject entries, and the
content stream string. -/
structure OutPage where
  mediabox : Int × Int × Int × Int
  rotate : Int
  xobjects : List (String × ImageXObject)
  content : String
  deriving DecidableEq

/-- The MuPDF library surface `compressWithMuPDF` uses, for one opened
source document: its page list (`countPages` / `loadPage`), the
rasterizer, the JPEG encoder, and document serialization
(`saveToBuffer('compress')` followed by `Buffer.from`). -/
structure MuPDFEnv where
  pages : List SrcPage
  toPixmap : SrcPage → ℚ → Pixmap
  asJPEG : Pixmap → Nat → List Nat
  saveToBuffer : List OutPage → List Nat

/-- One iteration of the per-page loop of `compressWithMuPDF`: render
the page to a pixmap at `scale`, encode it as a JPEG at `quality`, build
the `/DCTDecode` image XObject and the page object whose content stream
draws `Im0` scaled to the page's width and height. -/
def processPage (env : MuPDFEnv) (quality : Nat) (scale : ℚ)
    (page : SrcPage) : OutPage :=
  let pw := page.x1 - page.x0
  let ph := page.y1 - page.y0
  let pix := env.toPixmap page scale
  let imgW := pix.width
  let imgH := pix.height
  let jpegBytes := env.asJPEG pix quality
  let imgObj : ImageXObject :=
    { typeName := "XObject", subtype := "Image", width := imgW,
      height := imgH, colorSpace := "DeviceRGB", bitsPerComponent := 8,
      filter := "DCTDecode", stream := jpegBytes }
  { mediabox := (0, 0, pw, ph), rotate := 0,
    xobjects := [("Im0", imgObj)],
    content := "q " ++ toString pw ++ " 0 0 " ++ toString ph ++
               " 0 0 cm /Im0 Do Q" }

/-- Insertion into a page list at a nonnegative index. -/
def insertAt : List OutPage → Nat → OutPage → List OutPage
  | l, 0, p => p :: l
  | [], _ + 1, p => [p]
  | q :: l, n + 1, p => q :: insertAt l n p

/-- MuPDF `insertPage`: a negative index (the source always passes `-1`)
appends at the end of the page tree. -/
def insertPage (doc : List OutPage) (idx : Int) (p : OutPage) :
    List OutPage :=
  if idx < 0 then doc ++ [p] else insertAt doc idx.toNat p

/-- The page loop of `compressWithMuPDF`: `for i in 0..countPages`,
process page `i` and `insertPage(-1, pageObj)` into the output
document. -/
def compressPages (env : MuPDFEnv) (quality : Nat) (scale : ℚ) :
    List OutPage :=
  (List.range env.pages.length).foldl
    (fun outPages i =>
      insertPage outPages (-1)
        (processPage env quality scale (env.pages.getD i default)))
    []

/-- Function `compressWithMuPDF`: look up the level's quality and scale
in `LEVEL_CONFIG` and run the page loop; `none` when the level is not a
key (destructuring `undefined` would throw in the source — the handler
never calls it that way). -/
def compressWithMuPDF (env : MuPDFEnv) (level : String) :
    Option (List OutPage) :=
  (LEVEL_CONFIG level).map (fun cfg =>
    compressPages env cfg.quality cfg.scale)

/-- The successful response of the handler: the body bytes sent and the
size / engine metadata headers set at lines 359–369 of the source. -/
structure CompressResponse where
  body : List Nat
  contentLength : Nat
  xOriginalSize : Nat
  xCompressedSize : Nat
  xEngine : String
  deriving DecidableEq

/-- Lines 344–369 of the handler: the size check (if the engine output
is at least as long as the input, the original input bytes are
substituted) followed by assembly of the response and its headers. -/
def handlerRespond (inputBuffer engineOut : List Nat) (engine : String) :
    CompressResponse :=
  let compressedBuffer :=
    if engineOut.length ≥ inputBuffer.length then inputBuffer else engineOut
  { body := compressedBuffer,
    contentLength := compressedBuffer.length,
    xOriginalSize := inputBuffer.length,
    xCompressedSize := compressedBuffer.length,
    xEngine := engine }

/-- Lines 324–369 of the handler plus its catch block: validate the
level, pick the engine by Ghostscript availability (`gsPath`), run it,
and either respond (after the size check) tagging the engine that ran,
or classify the thrown error. -/
def handlerCompress (inputBuffer : List Nat) (rawLevel : Option String)
    (gsPath : Option String) (exec : List String → GsExec) (id : String)
    (env : MuPDFEnv) (fs0 : Fs) : Fs × Except String CompressResponse :=
  let level := validateLevel rawLevel
  match gsPath with
  | some _ =>
    let r := compressWithGhostscript exec id inputBuffer level fs0
    match r.2 with
    | .ok out => (r.1, .ok (handlerRespond inputBuffer out "ghostscript"))
    | .error e => (r.1, .error (classifyError false e))
  | none =>
    match compressWithMuPDF env level with
    | some outPages =>
      (fs0, .ok (handlerRespond inputBuffer
        (env.saveToBuffer outPages) "mupdf"))
    | none => (fs0, .error (classifyError false "TypeError"))

/-- Concrete MuPDF library instance used by witnesses: two pages, a
rasterizer returning a pixmap of the page's integer dimensions, a JPEG
encoder returning a three-byte stream, and a serializer returning one
byte per page. -/
def wEnv : MuPDFEnv :=
  { pages := [{ x0 := 0, y0 := 0, x1 := 612, y1 := 792 },
              { x0 := 0, y0 := 0, x1 := 200, y1 := 100 }],
    toPixmap := fun p _ =>
      { width := (p.x1 - p.x0).toNat, height := (p.y1 - p.y0).toNat,
        samples := [] },
    asJPEG := fun pix q => [pix.width % 256, pix.height % 256, q],
    saveToBuffer := fun pages => List.replicate pages.length 37 }

/-! ### Theorems -/

theorem charsStartWith_nil (s : List Char) : charsStartWith s [] = true := by
  cases s <;> rfl

theorem charsStartWith_append {s sub : List Char} (t : List Char)
    (h : charsStartWith s sub = true) : charsStartWith (s ++ t) sub = true := by
  induction sub generalizing s with
  | nil => exact charsStartWith_nil _
  | cons d ds ih =>
    cases s with
    | nil => simp [charsStartWith] at h
    | cons c cs =>
      simp only [charsStartWith, Bool.and_eq_true] at h
      simpa [charsStartWith, h.1] using ih h.2

theorem charsContain_of_startsWith {s sub : List Char}
    (h : charsStartWith s sub = true) : charsContain s sub = true := by
  cases s with
  | nil =>
    cases sub with
    | nil => rfl
    | cons d ds => simp [charsStartWith] at h
  | cons c cs => simp [charsContain, h]

theorem charsContain_append_left {a sub : List Char} (b : List Char)
    (h : charsContain a sub = true) : charsContain (a ++ b) sub = true := by
  induction a with
  | nil =>
    simp only [charsContain, List.isEmpty_iff] at h
    subst h
    cases b with
    | nil => rfl
    | cons x xs => simp [charsContain, charsStartWith_nil]
  | cons c cs ih =>
    simp only [charsContain, Bool.or_eq_true] at h ⊢
    rcases h with h | h
    · exact Or.inl (charsStartWith_append b h)
    · exact Or.inr (ih h)

theorem charsContain_append_right {b sub : List Char} (a : List Char)
    (h : charsContain b sub = true) : charsContain (a ++ b) sub = true := by
  induction a with
  | nil => simpa using h
  | cons c cs ih =>
    simp only [List.cons_append, charsContain, Bool.or_eq_true]
    exact Or.inr ih

theorem charsContain_self (l : List Char) : charsContain l l = true := by
  cases l with
  | nil => rfl
  | cons c cs =>
    have : charsStartWith (c :: cs) (c :: cs) = true := by
      induction cs with
      | nil => simp [charsStartWith]
      | cons d ds ih => simp_all [charsStartWith]
    simp [charsContain, this]

theorem strIncludes_append_left (a b sub : String)
    (h : strIncludes a sub = true) : strIncludes (a ++ b) sub = true := by
  have : (a ++ b).toList = a.toList ++ b.toList := by
    simp [String.toList]
  rw [strIncludes, this]
  exact charsContain_append_left _ h

theorem strIncludes_append_right (a b sub : String)
    (h : strIncludes b sub = true) : strIncludes (a ++ b) sub = true := by
  have : (a ++ b).toList = a.toList ++ b.toList := by
    simp [String.toList]
  rw [strIncludes, this]
  exact charsContain_append_right _ h

theorem strIncludes_self (s : String) : strIncludes s s = true :=
  charsContain_self s.toList

/-! ### Remote fetcher (`fetchBlobAsBufferOnce` / `fetchBlobAsBuffer`)

The network is modelled as a function from the attempt number to that
attempt's outcome: either a transport-level failure carrying an error
message (connection error, or the explicit `timeout` rejection), or an
HTTP response with a status code, status message and body bytes. -/

theorem fetchGo_zero (net : Nat → Except String HttpResponse)
    (attempt : Nat) (lastErr : String) (log : List (Nat × Nat)) :
    fetchGo net 0 attempt lastErr log =
      (log, .error ("Failed to fetch blob after 4 attempts: " ++ lastErr)) :=
  rfl

theorem fetchGo_fail (net : Nat → Except String HttpResponse)
    (fuel attempt : Nat) (lastErr e : String) (log : List (Nat × Nat))
    (h : fetchBlobAsBufferOnce (net attempt) = .error e) :
    fetchGo net (fuel + 1) attempt lastErr log =
      fetchGo net fuel (attempt + 1) e
        (log ++ [(attempt, if 1 < attempt then delayMs else 0)]) := by
  simp [fetchGo, h]

theorem fetchGo_ok (net : Nat → Except String HttpResponse)
    (fuel attempt : Nat) (lastErr : String) (log : List (Nat × Nat))
    (buf : List Nat)
    (h : fetchBlobAsBufferOnce (net attempt) = .ok buf) :
    fetchGo net (fuel + 1) attempt lastErr log =
      (log ++ [(attempt, if 1 < attempt then delayMs else 0)], .ok buf) := by
  simp [fetchGo, h]

/-- Claim C4 — when every one of the 4 attempts fails (transport error or
non-success status), `fetchBlobAsBuffer` raises a terminal error whose
message references the exhausted attempt count 4 and carries the message
of the last underlying failure; and any non-200 HTTP status on an attempt
is turned into a per-attempt failure (hence retryable by the loop). -/
theorem fetch_exhausted_error (net : Nat → Except String HttpResponse)
    (e : Nat → String)
    (h : ∀ i, 1 ≤ i → i ≤ 4 → fetchBlobAsBufferOnce (net i) = .error (e i)) :
    (fetchBlobAsBuffer net).2 =
      .error ("Failed to fetch blob after 4 attempts: " ++ e 4) ∧
    strIncludes ("Failed to fetch blob after 4 attempts: " ++ e 4) "4" = true ∧
    strIncludes ("Failed to fetch blob after 4 attempts: " ++ e 4) (e 4) = true ∧
    (∀ r : HttpResponse, r.statusCode ≠ 200 →
      fetchBlobAsBufferOnce (Except.ok r) =
        .error ("HTTP " ++ toString r.statusCode ++ " " ++ r.statusMessage)) := by
  have e1 := h 1 (by norm_num) (by norm_num)
  have e2 := h 2 (by norm_num) (by norm_num)
  have e3 := h 3 (by norm_num) (by norm_num)
  have e4 := h 4 (by norm_num) (by norm_num)
  refine ⟨?_, ?_, ?_, ?_⟩
  · have s1 : fetchGo net 4 1 "" [] = fetchGo net 3 2 (e 1) [(1, 0)] := by
      simpa using fetchGo_fail net 3 1 "" (e 1) [] e1
    have s2 : fetchGo net 3 2 (e 1) [(1, 0)] =
        fetchGo net 2 3 (e 2) [(1, 0), (2, delayMs)] := by
      simpa using fetchGo_fail net 2 2 (e 1) (e 2) [(1, 0)] e2
    have s3 : fetchGo net 2 3 (e 2) [(1, 0), (2, delayMs)] =
        fetchGo net 1 4 (e 3) [(1, 0), (2, delayMs), (3, delayMs)] := by
      simpa using fetchGo_fail net 1 3 (e 2) (e 3) [(1, 0), (2, delayMs)] e3
    have s4 : fetchGo net 1 4 (e 3) [(1, 0), (2, delayMs), (3, delayMs)] =
        fetchGo net 0 5 (e 4)
          [(1, 0), (2, delayMs), (3, delayMs), (4, delayMs)] := by
      simpa using fetchGo_fail net 0 4 (e 3) (e 4)
        [(1, 0), (2, delayMs), (3, delayMs)] e4
    have : fetchBlobAsBuffer net =
        ([(1, 0), (2, delayMs), (3, delayMs), (4, delayMs)],
         .error ("Failed to fetch blob after 4 attempts: " ++ e 4)) := by
      rw [fetchBlobAsBuffer, show maxAttempts = 4 from rfl, s1, s2, s3, s4,
        fetchGo_zero]
    rw [this]
  · exact strIncludes_append_left _ _ _ (by decide)
  · exact strIncludes_append_right _ _ _ (strIncludes_self _)
  · intro r hr
    simp [fetchBlobAsBufferOnce, hr]

/-- Concrete run of `fetch_exhausted_error`: every attempt fails with
`ECONNRESET`, and a 404 response is converted to a failure message. -/
theorem fetch_exhausted_error_witness :
    (fetchBlobAsBuffer (fun _ => Except.error "ECONNRESET")).2 =
      .error ("Failed to fetch blob after 4 attempts: " ++ "ECONNRESET") ∧
    strIncludes ("Failed to fetch blob after 4 attempts: " ++ "ECONNRESET")
      "4" = true ∧
    strIncludes ("Failed to fetch blob after 4 attempts: " ++ "ECONNRESET")
      "ECONNRESET" = true ∧
    fetchBlobAsBufferOnce
        (Except.ok { statusCode := 404, statusMessage := "Not Found",
                     body := [] }) =
      .error ("HTTP " ++ toString (404 : Nat) ++ " " ++ "Not Found") := by
  have h := fetch_exhausted_error (fun _ => Except.error "ECONNRESET")
    (fun _ => "ECONNRESET") (fun _ _ _ => rfl)
  exact ⟨h.1, h.2.1, h.2.2.1, h.2.2.2 _ (by decide)⟩

/-- Claim C5 — when attempts 1–3 fail and attempt 4 succeeds,
`fetchBlobAsBuffer` returns exactly the bytes of attempt 4, having made
exactly the attempts 1,2,3,4 with delay `delayMs` slept before each
attempt but the first, and `delayMs` is the constant 1500 ms, inside the
1–1.5 second range. -/
theorem fetch_retry_succeeds (net : Nat → Except String HttpResponse)
    (e : Nat → String) (buf : List Nat)
    (hfail : ∀ i, 1 ≤ i → i ≤ 3 →
      fetchBlobAsBufferOnce (net i) = .error (e i))
    (hok : fetchBlobAsBufferOnce (net 4) = .ok buf) :
    fetchBlobAsBuffer net =
      ([(1, 0), (2, delayMs), (3, delayMs), (4, delayMs)], .ok buf) ∧
    delayMs = 1500 ∧ 1000 ≤ delayMs ∧ delayMs ≤ 1500 ∧ maxAttempts = 4 := by
  have e1 := hfail 1 (by norm_num) (by norm_num)
  have e2 := hfail 2 (by norm_num) (by norm_num)
  have e3 := hfail 3 (by norm_num) (by norm_num)
  refine ⟨?_, rfl, by decide, by decide, rfl⟩
  have s1 : fetchGo net 4 1 "" [] = fetchGo net 3 2 (e 1) [(1, 0)] := by
    simpa using fetchGo_fail net 3 1 "" (e 1) [] e1
  have s2 : fetchGo net 3 2 (e 1) [(1, 0)] =
      fetchGo net 2 3 (e 2) [(1, 0), (2, delayMs)] := by
    simpa using fetchGo_fail net 2 2 (e 1) (e 2) [(1, 0)] e2
  have s3 : fetchGo net 2 3 (e 2) [(1, 0), (2, delayMs)] =
      fetchGo net 1 4 (e 3) [(1, 0), (2, delayMs), (3, delayMs)] := by
    simpa using fetchGo_fail net 1 3 (e 2) (e 3) [(1, 0), (2, delayMs)] e3
  have s4 : fetchGo net 1 4 (e 3) [(1, 0), (2, delayMs), (3, delayMs)] =
      ([(1, 0), (2, delayMs), (3, delayMs), (4, delayMs)], .ok buf) := by
    simpa using fetchGo_ok net 0 4 (e 3)
      [(1, 0), (2, delayMs), (3, delayMs)] buf hok
  rw [fetchBlobAsBuffer, show maxAttempts = 4 from rfl, s1, s2, s3, s4]

/-- Concrete run of `fetch_retry_succeeds`: attempts 1–3 get HTTP 403,
attempt 4 returns status 200 with body `[7, 8, 9]`. -/
theorem fetch_retry_succeeds_witness :
    fetchBlobAsBuffer
        (fun i =>
          if i < 4 then
            Except.ok { statusCode := 403, statusMessage := "Forbidden",
                        body := [] }
          else
            Except.ok { statusCode := 200, statusMessage := "OK",
                        body := [7, 8, 9] }) =
      ([(1, 0), (2, delayMs), (3, delayMs), (4, delayMs)],
       .ok [7, 8, 9]) ∧
    delayMs = 1500 ∧ 1000 ≤ delayMs ∧ delayMs ≤ 1500 ∧ maxAttempts = 4 := by
  refine fetch_retry_succeeds _ (fun _ => "HTTP 403 Forbidden") [7, 8, 9]
    ?_ rfl
  intro i h1 h3
  interval_cases i <;> rfl

/-! ### Level policy (`LEVEL_CONFIG`, handler line `level = 'medium'`) -/

/-- Claim C8 — an absent or unrecognized level string is not an error:
it is coerced to `medium`, and the configuration the engines then
receive is medium's row (quality 60, scale 1.2, `/ebook`). -/
theorem unrecognized_level_coerced (rawLevel : Option String)
    (h : rawLevel = none ∨
      ∃ s, rawLevel = some s ∧ levelKeys.contains s = false) :
    validateLevel rawLevel = "medium" ∧
    LEVEL_CONFIG (validateLevel rawLevel) =
      some { quality := 60, scale := 6 / 5, gsSetting := "/ebook" } := by
  have hv : validateLevel rawLevel = "medium" := by
    rcases h with h | ⟨s, hs, hns⟩
    · rw [h]; rfl
    · rw [hs]
      simp only [validateLevel, hns]
      rfl
  exact ⟨hv, by rw [hv]; rfl⟩

/-- Concrete run of `unrecognized_level_coerced` on the unrecognized
level string `"extreme"`. -/
theorem unrecognized_level_coerced_witness :
    validateLevel (some "extreme") = "medium" ∧
    LEVEL_CONFIG (validateLevel (some "extreme")) =
      some { quality := 60, scale := 6 / 5, gsSetting := "/ebook" } :=
  unrecognized_level_coerced (some "extreme")
    (Or.inr ⟨"extreme", rfl, by decide⟩)

/-! ### Error classification (the handler's catch block) -/

/-- Claim C3 counterexample — the claim fails on the code in two ways,
shown at explicit inputs.  When the last underlying cause is the
fetcher's own `timeout` rejection, the terminal message
`Failed to fetch blob after 4 attempts: timeout` matches the `timeout`
pattern first and the user sees the compression-timeout message, not the
retrieval message.  And for a non-timeout cause (`HTTP 404 Not Found`)
the user-facing message is not generic: it contains the internal
last-cause detail. -/
theorem retrieval_generic_message_cex :
    classifyError false "Failed to fetch blob after 4 attempts: timeout" =
      "Compression timed out. Please try the High compression level for large files." ∧
    strIncludes
      (classifyError false "Failed to fetch blob after 4 attempts: timeout")
      "Could not retrieve uploaded file" = false ∧
    strIncludes
      (classifyError false
        "Failed to fetch blob after 4 attempts: HTTP 404 Not Found")
      "HTTP 404 Not Found" = true := by
  refine ⟨by decide, by decide, by decide⟩

/-- Claim C3 as amended — when an exhausted retrieval's terminal error
reaches the catch block and the last cause contains none of the
earlier-matched patterns (`encrypted`, `password`, `timeout`), the
user-facing message is `Could not retrieve uploaded file: ` followed by
the internal terminal-error detail (the detail is included, not
suppressed); a last cause containing `timeout` instead produces the
compression-timeout message. -/
theorem retrieval_message_amended (lastErr : String)
    (he : strIncludes
      ("Failed to fetch blob after 4 attempts: " ++ lastErr) "encrypted" = false)
    (hp : strIncludes
      ("Failed to fetch blob after 4 attempts: " ++ lastErr) "password" = false)
    (ht : strIncludes
      ("Failed to fetch blob after 4 attempts: " ++ lastErr) "timeout" = false) :
    classifyError false ("Failed to fetch blob after 4 attempts: " ++ lastErr) =
      "Could not retrieve uploaded file: " ++
        ("Failed to fetch blob after 4 attempts: " ++ lastErr) := by
  have hblob : strIncludes
      ("Failed to fetch blob after 4 attempts: " ++ lastErr)
      "Failed to fetch blob" = true :=
    strIncludes_append_left _ _ _ (by decide)
  simp [classifyError, he, hp, ht, hblob]

/-- Concrete run of `retrieval_message_amended` with last cause
`HTTP 404 Not Found`. -/
theorem retrieval_message_amended_witness :
    classifyError false
        ("Failed to fetch blob after 4 attempts: " ++ "HTTP 404 Not Found") =
      "Could not retrieve uploaded file: " ++
        ("Failed to fetch blob after 4 attempts: " ++ "HTTP 404 Not Found") :=
  retrieval_message_amended "HTTP 404 Not Found"
    (by decide) (by decide) (by decide)

/-! ### Filesystem model and `compressWithGhostscript`

The filesystem is an association list from path to contents; a write
prepends, a read returns the most recent entry, an unlink removes every
entry at the path (and, like the source's `try {} catch {}` around
`unlinkSync`, is a no-op when the file is absent). -/

theorem hasFile_unlinkSync_self (fs : Fs) (p : String) :
    hasFile (unlinkSync fs p) p = false := by
  induction fs with
  | nil => rfl
  | cons e es ih =>
    cases h : e.1 == p <;>
      simp [unlinkSync, hasFile, List.filter, h] at ih ⊢

theorem hasFile_unlinkSync_mono (fs : Fs) (p q : String)
    (h : hasFile fs p = false) : hasFile (unlinkSync fs q) p = false := by
  induction fs with
  | nil => rfl
  | cons e es ih =>
    simp only [hasFile, List.any_cons, Bool.or_eq_false_iff] at h
    cases hq : e.1 == q <;>
      simp [unlinkSync, hasFile, List.filter, hq, h.1] <;>
      simpa [unlinkSync, hasFile] using ih h.2

/-- Claim C6 — on every exit path of `compressWithGhostscript`
(successful output, non-zero exit or timeout of the binary, missing
output file, or the level lookup throwing), both uniquely-named
temporary files are gone from the filesystem the function leaves
behind. -/
theorem gs_cleanup (exec : List String → GsExec) (id : String)
    (inputBuffer : List Nat) (level : String) (fs0 : Fs) :
    hasFile (compressWithGhostscript exec id inputBuffer level fs0).1
      (gsInPath id) = false ∧
    hasFile (compressWithGhostscript exec id inputBuffer level fs0).1
      (gsOutPath id) = false := by
  constructor
  · exact hasFile_unlinkSync_mono _ _ _ (hasFile_unlinkSync_self _ _)
  · exact hasFile_unlinkSync_self _ _

theorem foldl_insertPage_append (g : Nat → OutPage) (l : List Nat)
    (acc : List OutPage) :
    l.foldl (fun outPages i => insertPage outPages (-1) (g i)) acc =
      acc ++ l.map g := by
  induction l generalizing acc with
  | nil => simp
  | cons x xs ih =>
    rw [List.foldl_cons, ih]
    simp [insertPage]

theorem range_map_getD {α β : Type} [Inhabited α] (l : List α) (f : α → β) :
    (List.range l.length).map (fun i => f (l.getD i default)) = l.map f := by
  apply List.ext_getElem (by simp)
  intro i h1 h2
  have hi : i < l.length := by simpa using h2
  simp only [List.getElem_map, List.getElem_range,
    List.getD_eq_getElem l default hi]

theorem compressWithMuPDF_eq_map (env : MuPDFEnv) (level : String)
    (cfg : LevelCfg) (h : LEVEL_CONFIG level = some cfg) :
    compressWithMuPDF env level =
      some (env.pages.map (processPage env cfg.quality cfg.scale)) := by
  rw [compressWithMuPDF, h, Option.map_some']
  rw [compressPages, foldl_insertPage_append, List.nil_append,
    range_map_getD]

/-- Claim C2 — for every readable document (a page list) and every
recognized level, `compressWithMuPDF` produces exactly one output page
per input page, in input order: the output page list is the map of the
per-page pipeline over the input page list, so the page count is
preserved and no page is dropped, duplicated or reordered. -/
theorem mupdf_page_mapping (env : MuPDFEnv) (level : String)
    (cfg : LevelCfg) (h : LEVEL_CONFIG level = some cfg) :
    compressWithMuPDF env level =
      some (env.pages.map (processPage env cfg.quality cfg.scale)) ∧
    ∀ out, compressWithMuPDF env level = some out →
      out.length = env.pages.length := by
  have hmain := compressWithMuPDF_eq_map env level cfg h
  refine ⟨hmain, fun out hout => ?_⟩
  rw [hmain] at hout
  cases hout
  simp

/-- Concrete run of `mupdf_page_mapping` on the two-page `wEnv` at level
`low`. -/
theorem mupdf_page_mapping_witness :
    compressWithMuPDF wEnv "low" =
      some (wEnv.pages.map (processPage wEnv 85 (3 / 2))) ∧
    (wEnv.pages.map (processPage wEnv 85 (3 / 2))).length =
      wEnv.pages.length := by
  have h := mupdf_page_mapping wEnv "low"
    { quality := 85, scale := 3 / 2, gsSetting := "/printer" } rfl
  exact ⟨h.1, h.2 _ h.1⟩

/-- Claim C7 — the level policy is the fixed three-row table: low gives
JPEG quality 85, scale 1.5 and the print-oriented directive `/printer`;
medium gives 60, 1.2 and `/ebook`; high gives 35, 1.0 and `/screen`;
and exactly these rows are what the engines receive: the Ghostscript
argument vector carries the row's `-dPDFSETTINGS` directive, and the
page-render pipeline runs at the row's quality and scale. -/
theorem level_policy :
    LEVEL_CONFIG "low" =
      some { quality := 85, scale := 3 / 2, gsSetting := "/printer" } ∧
    LEVEL_CONFIG "medium" =
      some { quality := 60, scale := 6 / 5, gsSetting := "/ebook" } ∧
    LEVEL_CONFIG "high" =
      some { quality := 35, scale := 1, gsSetting := "/screen" } ∧
    (∀ outPath inPath, gsArgs "low" outPath inPath =
      some ["-sDEVICE=pdfwrite", "-dNOPAUSE", "-dBATCH", "-dQUIET",
            "-dPDFSETTINGS=/printer", "-dCompatibilityLevel=1.5",
            "-sOutputFile=" ++ outPath, inPath]) ∧
    (∀ outPath inPath, gsArgs "medium" outPath inPath =
      some ["-sDEVICE=pdfwrite", "-dNOPAUSE", "-dBATCH", "-dQUIET",
            "-dPDFSETTINGS=/ebook", "-dCompatibilityLevel=1.5",
            "-sOutputFile=" ++ outPath, inPath]) ∧
    (∀ outPath inPath, gsArgs "high" outPath inPath =
      some ["-sDEVICE=pdfwrite", "-dNOPAUSE", "-dBATCH", "-dQUIET",
            "-dPDFSETTINGS=/screen", "-dCompatibilityLevel=1.5",
            "-sOutputFile=" ++ outPath, inPath]) ∧
    (∀ env, compressWithMuPDF env "low" =
      some (env.pages.map (processPage env 85 (3 / 2)))) ∧
    (∀ env, compressWithMuPDF env "medium" =
      some (env.pages.map (processPage env 60 (6 / 5)))) ∧
    (∀ env, compressWithMuPDF env "high" =
      some (env.pages.map (processPage env 35 1))) := by
  refine ⟨rfl, rfl, rfl, fun o i => rfl, fun o i => rfl, fun o i => rfl,
    fun env => ?_, fun env => ?_, fun env => ?_⟩
  · exact compressWithMuPDF_eq_map env "low" _ rfl
  · exact compressWithMuPDF_eq_map env "medium" _ rfl
  · exact compressWithMuPDF_eq_map env "high" _ rfl

theorem handlerRespond_body_le (i o : List Nat) (e : String) :
    (handlerRespond i o e).body.length ≤ i.length := by
  simp only [handlerRespond]
  split
  · exact Nat.le_refl _
  · omega

theorem handlerCompress_ok_shape (inputBuffer : List Nat)
    (rawLevel : Option String) (gsPath : Option String)
    (exec : List String → GsExec) (id : String) (env : MuPDFEnv) (fs0 : Fs)
    (resp : CompressResponse)
    (hok : (handlerCompress inputBuffer rawLevel gsPath exec id env fs0).2 =
      .ok resp) :
    ∃ out, resp = handlerRespond inputBuffer out
      (if gsPath.isSome then "ghostscript" else "mupdf") := by
  cases gsPath with
  | some g =>
    simp only [handlerCompress] at hok
    cases h2 : (compressWithGhostscript exec id inputBuffer
        (validateLevel rawLevel) fs0).2 with
    | ok o =>
      rw [h2] at hok
      simp only [Except.ok.injEq] at hok
      exact ⟨o, by simp [hok.symm]⟩
    | error e =>
      rw [h2] at hok
      simp at hok
  | none =>
    simp only [handlerCompress] at hok
    cases h2 : compressWithMuPDF env (validateLevel rawLevel) with
    | some pages =>
      rw [h2] at hok
      simp only [Except.ok.injEq] at hok
      exact ⟨env.saveToBuffer pages, by simp [hok.symm]⟩
    | none =>
      rw [h2] at hok
      simp at hok

/-- Claim C1 — every successful response of the handler carries a body
no longer than the input buffer, and whenever the engine output is at
least as long as the input, the size check discards it and the original
input bytes are returned unchanged. -/
theorem size_guarantee (inputBuffer out : List Nat) (engine : String)
    (rawLevel : Option String) (gsPath : Option String)
    (exec : List String → GsExec) (id : String) (env : MuPDFEnv) (fs0 : Fs)
    (resp : CompressResponse)
    (hok : (handlerCompress inputBuffer rawLevel gsPath exec id env fs0).2 =
      .ok resp) :
    resp.body.length ≤ inputBuffer.length ∧
    (out.length ≥ inputBuffer.length →
      (handlerRespond inputBuffer out engine).body = inputBuffer) := by
  constructor
  · obtain ⟨o, rfl⟩ := handlerCompress_ok_shape inputBuffer rawLevel gsPath
      exec id env fs0 resp hok
    exact handlerRespond_body_le _ _ _
  · intro h
    simp [handlerRespond, h]

/-- Concrete run of `size_guarantee`: a three-byte input compressed via
the page-render engine to a two-byte body, and a four-byte engine output
that the size check replaces with the three-byte original. -/
theorem size_guarantee_witness :
    ({ body := [37, 37], contentLength := 2, xOriginalSize := 3,
       xCompressedSize := 2, xEngine := "mupdf" } :
        CompressResponse).body.length ≤ ([10, 20, 30] : List Nat).length ∧
    (handlerRespond [10, 20, 30] [9, 9, 9, 9] "mupdf").body =
      [10, 20, 30] := by
  have h := size_guarantee [10, 20, 30] [9, 9, 9, 9] "mupdf"
    (some "medium") none (fun _ => GsExec.fail "timeout" none) "x" wEnv []
    { body := [37, 37], contentLength := 2, xOriginalSize := 3,
      xCompressedSize := 2, xEngine := "mupdf" } rfl
  exact ⟨h.1, h.2 (by decide)⟩

/-- Claim C9 — a successful response's engine identifier names the
engine that actually ran (`ghostscript` when the probe found a binary,
`mupdf` otherwise — the two fixed tags), and the size-check substitution
leaves the identifier untouched: `handlerRespond` sets `xEngine` to the
engine tag it was given regardless of which bytes the size check
kept. -/
theorem engine_tag (inputBuffer : List Nat) (rawLevel : Option String)
    (gsPath : Option String) (exec : List String → GsExec) (id : String)
    (env : MuPDFEnv) (fs0 : Fs) (resp : CompressResponse)
    (hok : (handlerCompress inputBuffer rawLevel gsPath exec id env fs0).2 =
      .ok resp) :
    resp.xEngine = (if gsPath.isSome then "ghostscript" else "mupdf") ∧
    (resp.xEngine = "ghostscript" ∨ resp.xEngine = "mupdf") ∧
    (∀ i o e, (handlerRespond i o e).xEngine = e) := by
  obtain ⟨o, rfl⟩ := handlerCompress_ok_shape inputBuffer rawLevel gsPath
    exec id env fs0 resp hok
  refine ⟨rfl, ?_, fun i o e => rfl⟩
  cases gsPath with
  | some g => exact Or.inl rfl
  | none => exact Or.inr rfl

/-- Concrete run of `engine_tag`: Ghostscript is available and succeeds
with a one-byte output, so the tag is `ghostscript`. -/
theorem engine_tag_witness :
    ({ body := [5], contentLength := 1, xOriginalSize := 3,
       xCompressedSize := 1, xEngine := "ghostscript" } :
        CompressResponse).xEngine = "ghostscript" ∧
    (({ body := [5], contentLength := 1, xOriginalSize := 3,
        xCompressedSize := 1, xEngine := "ghostscript" } :
         CompressResponse).xEngine = "ghostscript" ∨
     ({ body := [5], contentLength := 1, xOriginalSize := 3,
        xCompressedSize := 1, xEngine := "ghostscript" } :
         CompressResponse).xEngine = "mupdf") ∧
    (handlerRespond [1, 2] [3] "mupdf").xEngine = "mupdf" := by
  have h := engine_tag [10, 20, 30] (some "low") (some "gs")
    (fun _ => GsExec.exit0 (some [5])) "abc" wEnv []
    { body := [5], contentLength := 1, xOriginalSize := 3,
      xCompressedSize := 1, xEngine := "ghostscript" } rfl
  exact ⟨h.1, h.2.1, h.2.2 [1, 2] [3] "mupdf"⟩

/-- Claim C10 — in every successful response the three size fields are
mutually consistent with the sent body: `Content-Length` and
`X-Compressed-Size` both equal the body's byte length after any
size-check substitution, `X-Original-Size` equals the input buffer's
byte length, and when the original is substituted `X-Compressed-Size`
equals `X-Original-Size` (not the discarded output's size). -/
theorem headers_consistent (inputBuffer out : List Nat) (engine : String) :
    (handlerRespond inputBuffer out engine).contentLength =
      (handlerRespond inputBuffer out engine).body.length ∧
    (handlerRespond inputBuffer out engine).xCompressedSize =
      (handlerRespond inputBuffer out engine).body.length ∧
    (handlerRespond inputBuffer out engine).xOriginalSize =
      inputBuffer.length ∧
    (out.length ≥ inputBuffer.length →
      (handlerRespond inputBuffer out engine).xCompressedSize =
        (handlerRespond inputBuffer out engine).xOriginalSize ∧
      (handlerRespond inputBuffer out engine).body = inputBuffer) := by
  refine ⟨rfl, rfl, rfl, fun h => ?_⟩
  constructor
  · simp [handlerRespond, h]
  · simp [handlerRespond, h]

/-- Concrete run of `headers_consistent` with a two-byte input and a
three-byte engine output, which the size check replaces. -/
theorem headers_consistent_witness :
    (handlerRespond [1, 2] [3, 3, 3] "mupdf").contentLength =
      (handlerRespond [1, 2] [3, 3, 3] "mupdf").body.length ∧
    (handlerRespond [1, 2] [3, 3, 3] "mupdf").xCompressedSize =
      (handlerRespond [1, 2] [3, 3, 3] "mupdf").body.length ∧
    (handlerRespond [1, 2] [3, 3, 3] "mupdf").xOriginalSize =
      ([1, 2] : List Nat).length ∧
    ((handlerRespond [1, 2] [3, 3, 3] "mupdf").xCompressedSize =
      (handlerRespond [1, 2] [3, 3, 3] "mupdf").xOriginalSize ∧
     (handlerRespond [1, 2] [3, 3, 3] "mupdf").body = [1, 2]) := by
  have h := headers_consistent [1, 2] [3, 3, 3] "mupdf"
  exact ⟨h.1, h.2.1, h.2.2.1, h.2.2.2 (by decide)⟩

end CompressFiles
